import Mathlib

/-!
Shallow embedding of the "Is This Image Real?" Chrome extension
(src/content.js and src/background.js) and proofs about its behaviour.

Conventions of the embedding:
* DOM elements are records carrying the attributes the scripts inspect
  (matched CSS selectors, contenteditable attribute, bounding box, text,
  markup, aria-label).
* The stateful orchestration in the content script's main IIFE is embedded
  as a pure function from an environment (the outcomes of the external
  interactions: the pending record, readiness, fetch results, DOM check
  results) to the list of actions the script performs, in order.
* JavaScript string helpers (includes, split, truthiness) are modelled by
  executable Lean counterparts defined below.
* Times are integers in milliseconds; timers and awaits are modelled by
  explicit settle actions and by the poll-index time formula of the
  readiness loop.
-/

namespace SynthID

/-- JS String.prototype.includes restricted to lists of characters:
true iff pat occurs contiguously inside the second list. -/
def hasInfixList (pat : List Char) : List Char → Bool
  | [] => pat.isEmpty
  | c :: rest => pat.isPrefixOf (c :: rest) || hasInfixList pat rest

/-- Model of JS s.includes(pat). -/
def jsIncludes (s pat : String) : Bool :=
  hasInfixList pat.toList s.toList

/-- Model of JS s.split(c) for a one-character separator, on char lists:
"".split is [""] and separators at the ends yield empty segments. -/
def splitOnCharAux (c : Char) : List Char → List (List Char)
  | [] => [[]]
  | x :: xs =>
      if x = c then [] :: splitOnCharAux c xs
      else
        match splitOnCharAux c xs with
        | [] => [[x]]
        | r :: rs => (x :: r) :: rs

/-- Model of JS s.split(c) returning strings. -/
def jsSplit (s : String) (c : Char) : List String :=
  (splitOnCharAux c s.toList).map String.mk

/-- Bounding box as returned by getBoundingClientRect, logical pixels. -/
structure Rect where
  width : Int
  height : Int
  top : Int
  bottom : Int
  right : Int
deriving DecidableEq, Repr

/-- DOM element as observed by the scripts: the CSS selectors it matches,
its contenteditable attribute value (none when the attribute is absent),
bounding box, text content, markup, aria-label and whether it is a button. -/
structure Elem where
  tag : String
  selectors : List String
  contenteditable : Option String
  rect : Rect
  textContent : String
  innerHTML : String
  ariaLabel : String
  isButton : Bool
deriving DecidableEq, Repr

/-- A DOM snapshot: the document's elements in document order. -/
structure DOM where
  elems : List Elem
deriving DecidableEq, Repr

/-- document.querySelector: first element in document order matching sel. -/
def querySelector (dom : DOM) (sel : String) : Option Elem :=
  dom.elems.find? (fun e => e.selectors.contains sel)

/-- The selector fallback chain of content.js findInputArea (lines 740-758). -/
def inputAreaSelectors : List String :=
  ["rich-textarea [contenteditable=\"true\"]",
   "rich-textarea",
   ".ql-editor[contenteditable=\"true\"]",
   "div[contenteditable=\"true\"][aria-label]",
   "[data-placeholder*=\"Ask\"]",
   ".input-area [contenteditable=\"true\"]",
   "div[contenteditable=\"true\"]"]

/-- content.js findInputArea: try each selector in order, return the first
match; no bounding-box or visibility test is applied here. -/
def findInputArea (dom : DOM) : Option Elem :=
  inputAreaSelectors.findSome? (fun sel => querySelector dom sel)

/-- The size test of the generic contenteditable scan in waitForGeminiReady
(content.js line 156): rect.width > 100 and rect.height > 20. -/
def suitableInput (e : Elem) : Bool :=
  decide (e.rect.width > 100) && decide (e.rect.height > 20)

/-- The generic scan of waitForGeminiReady (content.js lines 147-160): all
elements with contenteditable="true", first one passing the size test. -/
def genericScan (dom : DOM) : Option Elem :=
  (dom.elems.filter (fun e => e.contenteditable == some "true")).find? suitableInput

/-- One iteration of the waitForGeminiReady poll body: the generic
contenteditable scan first, then the findInputArea selector chain. -/
def pollOnce (dom : DOM) : Option Elem :=
  match genericScan dom with
  | some e => some e
  | none => findInputArea dom

def MAX_WAIT_TIME : Nat := 30000

def POLL_INTERVAL : Nat := 500

/-- Diagnostic context logged on readiness timeout (content.js lines
175-178): the current URL and the elements carrying a contenteditable
attribute. -/
structure Diagnostics where
  url : String
  editableElems : List Elem
deriving DecidableEq, Repr

def diagOf (url : String) (dom : DOM) : Diagnostics :=
  ⟨url, dom.elems.filter (fun e => e.contenteditable.isSome)⟩

/-- Outcome of waitForGeminiReady: the located input element, or the
timeout error together with the diagnostics logged before throwing. -/
inductive ReadyResult where
  | found (e : Elem)
  | timeout (d : Diagnostics)
deriving DecidableEq, Repr

/-- The waitForGeminiReady poll loop (content.js lines 145-180). The k-th
poll runs when the elapsed time 2000 + 500 * k (initial hydration settle
plus k poll intervals, polls taken as instantaneous and the document as
already complete) is below MAX_WAIT_TIME. The fuel argument only bounds
the recursion; 57 units are enough to reach the loop exit at k = 56, so
the fuel-exhaustion branch is never taken from the entry point below. -/
def waitLoopAux (doms : Nat → DOM) (url : String) : Nat → Nat → ReadyResult
  | 0, k => ReadyResult.timeout (diagOf url (doms k))
  | fuel + 1, k =>
    if 2000 + POLL_INTERVAL * k < MAX_WAIT_TIME then
      match pollOnce (doms k) with
      | some e => ReadyResult.found e
      | none => waitLoopAux doms url fuel (k + 1)
    else ReadyResult.timeout (diagOf url (doms k))

/-- content.js waitForGeminiReady, as a function of the DOM snapshot seen
by each poll iteration and of the current URL. -/
def waitForGeminiReady (doms : Nat → DOM) (url : String) : ReadyResult :=
  waitLoopAux doms url 57 0

/-- The pendingImageCheck record written by background.js (lines 42-48). -/
structure PendingCheck where
  imageUrl : String
  timestamp : Int
  sourceTabId : Nat
deriving DecidableEq, Repr

/-- chrome.storage.local as used by the extension: the single
pendingImageCheck key. -/
structure StoreState where
  pendingImageCheck : Option PendingCheck
deriving DecidableEq, Repr

/-- background.js GET_PENDING_IMAGE handler (lines 110-121): respond with
the stored record (or null), and remove the stored copy when one was
present. Returns the response and the store state after handling. -/
def handleGetPendingImage (s : StoreState) : Option PendingCheck × StoreState :=
  (s.pendingImageCheck,
   if s.pendingImageCheck.isSome then ⟨none⟩ else s)

/-- The fatal download message of content.js fetchImage (line 224). -/
def downloadErrorMsg : String :=
  "Could not download this image. It may be protected. Try saving the image first, then uploading manually to Gemini."

/-- The readiness timeout message of content.js waitForGeminiReady (line 180). -/
def timeoutErrorMsg : String :=
  "Gemini took too long to load. Please refresh and try again."

/-- Outcome of content.js fetchImage: the blob or the thrown message,
plus whether the direct page-context fetch was attempted. -/
structure FetchOutcome where
  result : Except String String
  directAttempted : Bool
deriving Repr

/-- content.js fetchImage (lines 186-225). The background attempt is the
whole privileged-channel round trip (message, success flag, data-url to
blob conversion) collapsed to an optional blob, and likewise the direct
CORS fetch; the code falls through to the direct fetch exactly when the
background attempt produced no blob, and throws the download message when
both attempts produced none. -/
def fetchImage (bgAttempt directAttempt : Option String) : FetchOutcome :=
  match bgAttempt with
  | some b => ⟨Except.ok b, false⟩
  | none =>
    match directAttempt with
    | some b => ⟨Except.ok b, true⟩
    | none => ⟨Except.error downloadErrorMsg, true⟩

/-- content.js getFileNameFromUrl (lines 806-820). The browser URL parse
is modelled by the argument: some pathname when new URL(url) succeeds,
none when it throws (the catch branch). -/
def getFileNameFromUrl (parsedPathname : Option String) : String :=
  match parsedPathname with
  | none => "image.png"
  | some pathname =>
    let parts := jsSplit pathname '/'
    let lastPart := parts.getLastD ""
    if !lastPart.isEmpty && jsIncludes lastPart "." then lastPart else "image.png"

/-- The file name used for the File object in uploadImageToGemini (line
251): getFileNameFromUrl(originalUrl) || "image.png", where the OR takes
the right operand exactly when the left is the empty string. -/
def uploadFileName (parsedPathname : Option String) : String :=
  let n := getFileNameFromUrl parsedPathname
  if n.isEmpty then "image.png" else n

/-- content.js checkForSynthIdTag (lines 565-583): committed iff the text
contains the exact-cased token, or the markup contains chip, mention or
data- substrings. -/
def checkForSynthIdTag (text html : String) : Bool :=
  jsIncludes text "@SynthID" ||
  (jsIncludes html "chip" || jsIncludes html "mention" || jsIncludes html "data-")

/-- The outbound messages the content script sends to the background
worker (content.js lines 103 and 109). -/
inductive OutEvent where
  | checkComplete (success : Bool)
  | checkError (error : String)
deriving DecidableEq, Repr

/-- One observable step of the content script, in execution order: overlay
rendering, timed settles, DOM input synthesis, upload injection,
verification checks, send clicking, and outbound events. -/
inductive Action where
  | showOverlay (title : String)
  | removeOverlays
  | showError (msg : String)
  | showCompletion
  | showManualPrompt
  | settle (ms : Nat)
  | focusInput
  | clickInput
  | typeText (s : String)
  | waitDropdown
  | pressTabKey
  | clickAddButton
  | setFileInputFiles
  | dispatchChangeEvent
  | dispatchInputEvent
  | dispatchPaste
  | dragEnter (target : Nat)
  | dragOver (target : Nat)
  | drop (target : Nat)
  | uploadCheck (found : Bool)
  | warnUploadUnconfirmed
  | clickSend
  | emit (ev : OutEvent)
deriving DecidableEq, Repr

/-- The outbound events contained in a trace, in order. -/
def eventsOf (tr : List Action) : List OutEvent :=
  tr.filterMap fun a =>
    match a with
    | Action.emit ev => some ev
    | _ => none

/-- Each show…Overlay helper of content.js first calls removeAllOverlays
and then appends the overlay with the given title. -/
def showOverlayActs (title : String) : List Action :=
  [Action.removeOverlays, Action.showOverlay title]

/-- content.js typeSynthIDQuery (lines 465-523), as the trace of actions
it performs. t1 and h1 are the input area's textContent and innerHTML at
the verification after the first Tab dispatch; when that verification
fails, exactly one further Tab is dispatched, and the trailing question is
typed in either case (the second verification only affects logging, not
the trace). -/
def typeSynthIDQuery (t1 h1 : String) : List Action :=
  [Action.focusInput, Action.clickInput, Action.settle 300,
   Action.typeText "@", Action.waitDropdown,
   Action.typeText "synthid", Action.settle 300, Action.waitDropdown,
   Action.pressTabKey, Action.settle 300] ++
  (if checkForSynthIdTag t1 h1 then []
   else [Action.settle 300, Action.pressTabKey, Action.settle 300]) ++
  [Action.typeText " is this image real?"]

/-- Environment of the upload injection stages of uploadImageToGemini:
which elements exist, and the outcome of each checkForUploadedImage call
(the DOM changes between calls, so each call's result is a separate
field, and dragChecks lists the per-drop-target results inside
simulateDragDropUpload). -/
structure UploadEnv where
  addButtonFound : Bool
  fileInputPresent : Bool
  inputAreaPresent : Bool
  checkAfterFileInput : Bool
  checkAfterClipboard : Bool
  dragChecks : List Bool
  checkAfterDragStage : Bool
deriving DecidableEq, Repr

/-- The per-drop-target event sequence of simulateDragDropUpload
(content.js lines 417-455): dragenter, 100 ms, dragover, 100 ms, drop,
500 ms, then the uploaded-image check. -/
def dragTargetTrace (i : Nat) (check : Bool) : List Action :=
  [Action.dragEnter i, Action.settle 100, Action.dragOver i, Action.settle 100,
   Action.drop i, Action.settle 500, Action.uploadCheck check]

/-- The drop-target loop of simulateDragDropUpload: a successful check
returns early, skipping the remaining targets. -/
def dragLoop : Nat → List Bool → List Action
  | _, [] => []
  | i, c :: rest =>
      dragTargetTrace i c ++ (if c then [] else dragLoop (i + 1) rest)

/-- content.js simulateDragDropUpload (lines 406-459), as a trace. -/
def simulateDragDropUpload (checks : List Bool) : List Action :=
  dragLoop 0 checks

/-- The drag-and-drop stage reached when neither earlier injection
strategy verified (content.js lines 339-351): run the drag simulation,
settle 2000 ms, check once more and either return or log the warning. -/
def uploadDragStage (env : UploadEnv) : List Action :=
  simulateDragDropUpload env.dragChecks ++
  [Action.settle 2000, Action.uploadCheck env.checkAfterDragStage] ++
  (if env.checkAfterDragStage then [] else [Action.warnUploadUnconfirmed])

/-- The clipboard stage (content.js lines 324-337): pasteImageFromClipboard
throws when findInputArea yields nothing, and the throw is caught, skipping
the settle and check of this stage; on a verified paste the function
returns, otherwise the drag stage follows. -/
def uploadClipboardStage (env : UploadEnv) : List Action :=
  if env.inputAreaPresent then
    [Action.dispatchPaste, Action.settle 2000,
     Action.uploadCheck env.checkAfterClipboard] ++
    (if env.checkAfterClipboard then [] else uploadDragStage env)
  else uploadDragStage env

/-- content.js uploadImageToGemini (lines 249-351), as a trace: optional
add-button click with an 800 ms settle, then the file-input strategy (when
a file input exists) with change/input events, a 2000 ms settle and a
check that returns on success, then the clipboard stage, then the drag
stage; no branch throws. -/
def uploadImageToGemini (env : UploadEnv) : List Action :=
  (if env.addButtonFound then [Action.clickAddButton, Action.settle 800] else []) ++
  (if env.fileInputPresent then
     [Action.setFileInputFiles, Action.dispatchChangeEvent, Action.dispatchInputEvent,
      Action.settle 2000, Action.uploadCheck env.checkAfterFileInput] ++
     (if env.checkAfterFileInput then [] else uploadClipboardStage env)
   else uploadClipboardStage env)

/-- The composite fetch-then-inject pipeline of the orchestrator's steps
2 and 3: a failed fetch propagates its error, and the injection stage
always returns a trace. -/
def uploadPipeline (bgAttempt directAttempt : Option String) (env : UploadEnv) :
    Except String (List Action) :=
  match (fetchImage bgAttempt directAttempt).result with
  | Except.error e => Except.error e
  | Except.ok _ => Except.ok (uploadImageToGemini env)

/-- Environment of one content-script run: the picked-up record and
current time, the readiness outcome, the two fetch attempts' outcomes, the
input snapshots for the mention verification, the upload environment and
the final post-upload verification. -/
structure RunEnv where
  pending : Option PendingCheck
  now : Int
  ready : ReadyResult
  bgFetch : Option String
  directFetch : Option String
  t1 : String
  h1 : String
  upload : UploadEnv
  finalCheck : Bool
deriving Repr

/-- The content script's main IIFE (content.js lines 11-111), as the trace
of its actions given the run environment and the send-click outcome. A
stale or absent pending record returns before any overlay; a readiness
timeout or a double fetch failure is caught and reported as CHECK_ERROR;
otherwise the run types the query, fetches, injects, verifies, clicks
send, shows the completion or the manual prompt, and always reports
CHECK_COMPLETE with success true. -/
def runMain (env : RunEnv) (sendSuccess : Bool) : List Action :=
  match env.pending with
  | none => []
  | some p =>
    if env.now - p.timestamp > 30000 then []
    else
      showOverlayActs "Getting ready..." ++
      match env.ready with
      | ReadyResult.timeout _ =>
          [Action.removeOverlays] ++
          [Action.removeOverlays, Action.showError timeoutErrorMsg] ++
          [Action.emit (OutEvent.checkError timeoutErrorMsg)]
      | ReadyResult.found _ =>
          [Action.settle 1000, Action.removeOverlays] ++
          showOverlayActs "Getting ready..." ++
          typeSynthIDQuery env.t1 env.h1 ++
          [Action.settle 500] ++
          showOverlayActs "Uploading your image..." ++
          match (fetchImage env.bgFetch env.directFetch).result with
          | Except.error e =>
              [Action.removeOverlays] ++
              [Action.removeOverlays, Action.showError e] ++
              [Action.emit (OutEvent.checkError e)]
          | Except.ok _ =>
              uploadImageToGemini env.upload ++
              [Action.settle 2000, Action.uploadCheck env.finalCheck] ++
              showOverlayActs "Starting the check..." ++
              [Action.settle 800, Action.clickSend, Action.removeOverlays] ++
              (if sendSuccess then [Action.removeOverlays, Action.showCompletion]
               else [Action.removeOverlays, Action.showManualPrompt]) ++
              [Action.emit (OutEvent.checkComplete true)]

/-- Viewport dimensions read by clickSendButton. -/
structure Viewport where
  innerHeight : Int
  innerWidth : Int
deriving DecidableEq, Repr

/-- The icon-button size test of clickSendButton (content.js line 1092). -/
def isIconButton (r : Rect) : Bool :=
  decide (r.width < 100) && decide (r.height < 100) && decide (r.width > 20)

/-- The markup heuristic of clickSendButton (content.js lines 1093-1094). -/
def hasArrowMarkup (b : Elem) : Bool :=
  jsIncludes b.innerHTML "arrow" || jsIncludes b.innerHTML "send" ||
  jsIncludes b.innerHTML "M2" || jsIncludes b.innerHTML "path"

/-- clickSendButton method 1 (content.js lines 1083-1112): first button in
the lower-right region that is icon-sized and has send-like markup or a
send aria-label. -/
def sendMethod1 (dom : DOM) (vp : Viewport) : Option Elem :=
  (dom.elems.filter (fun e => e.isButton)).find? fun b =>
    decide (b.rect.bottom > vp.innerHeight - 200) &&
    decide (b.rect.right > vp.innerWidth / 2) &&
    (isIconButton b.rect &&
      (hasArrowMarkup b || jsIncludes b.ariaLabel.toLower "send"))

/-- clickSendButton method 2 (content.js lines 1115-1120): any element
whose aria-label contains send or submit case-insensitively. -/
def sendMethod2 (dom : DOM) : Option Elem :=
  dom.elems.find? fun e =>
    jsIncludes e.ariaLabel.toLower "send" || jsIncludes e.ariaLabel.toLower "submit"

/-- clickSendButton method 3 (content.js lines 1123-1143): the rightmost
button vertically within 100 px of the input area, requiring a strictly
positive right edge. -/
def sendMethod3 (dom : DOM) : Option Elem :=
  match findInputArea dom with
  | none => none
  | some ia =>
    (dom.elems.filter (fun e => e.isButton)).foldl
      (fun best b =>
        if decide ((b.rect.top - ia.rect.top).natAbs < 100) &&
           decide (b.rect.right >
             (match best with | none => 0 | some bb => bb.rect.right)) then
          some b
        else best)
      none

/-- content.js clickSendButton (lines 1079-1147): the three heuristics in
order, true as soon as one matches, false when none does. -/
def clickSendButton (dom : DOM) (vp : Viewport) : Bool :=
  match sendMethod1 dom vp with
  | some _ => true
  | none =>
    match sendMethod2 dom with
    | some _ => true
    | none =>
      match sendMethod3 dom with
      | some _ => true
      | none => false

/-- Classifier for the actions the drag-and-drop loop can emit. -/
def isDragAction : Action → Bool
  | Action.dragEnter _ => true
  | Action.dragOver _ => true
  | Action.drop _ => true
  | Action.settle _ => true
  | Action.uploadCheck _ => true
  | _ => false

/-- Classifier for the actions the upload injection stage can emit. -/
def isUploadAction : Action → Bool
  | Action.clickAddButton => true
  | Action.setFileInputFiles => true
  | Action.dispatchChangeEvent => true
  | Action.dispatchInputEvent => true
  | Action.dispatchPaste => true
  | Action.warnUploadUnconfirmed => true
  | Action.settle _ => true
  | Action.uploadCheck _ => true
  | Action.dragEnter _ => true
  | Action.dragOver _ => true
  | Action.drop _ => true
  | _ => false

/-- Classifier for the actions typeSynthIDQuery can emit. -/
def isComposeAction : Action → Bool
  | Action.focusInput => true
  | Action.clickInput => true
  | Action.typeText _ => true
  | Action.waitDropdown => true
  | Action.pressTabKey => true
  | Action.settle _ => true
  | _ => false

theorem mem_dragLoop {a : Action} :
    ∀ (l : List Bool) (i : Nat), a ∈ dragLoop i l → isDragAction a = true := by
  intro l
  induction l with
  | nil => intro i h; simp [dragLoop] at h
  | cons c rest ih =>
    intro i h
    rcases List.mem_append.1 h with h1 | h2
    · simp [dragTargetTrace] at h1
      rcases h1 with rfl | rfl | rfl | rfl | rfl | rfl | rfl <;> rfl
    · cases c with
      | true => simp at h2
      | false => exact ih (i + 1) h2

theorem mem_uploadDragStage {a : Action} (env : UploadEnv)
    (h : a ∈ uploadDragStage env) : isUploadAction a = true := by
  unfold uploadDragStage simulateDragDropUpload at h
  rcases List.mem_append.1 h with h | h
  · rcases List.mem_append.1 h with h | h
    · have hd := mem_dragLoop _ _ h
      cases a <;> simp_all [isDragAction, isUploadAction]
    · simp at h
      rcases h with rfl | rfl <;> rfl
  · by_cases hc : env.checkAfterDragStage = true
    · rw [if_pos hc] at h; simp at h
    · rw [if_neg hc] at h
      simp at h
      subst h; rfl

theorem mem_uploadClipboardStage {a : Action} (env : UploadEnv)
    (h : a ∈ uploadClipboardStage env) : isUploadAction a = true := by
  unfold uploadClipboardStage at h
  by_cases hia : env.inputAreaPresent = true
  · rw [if_pos hia] at h
    rcases List.mem_append.1 h with h | h
    · simp at h
      rcases h with rfl | rfl | rfl <;> rfl
    · by_cases hc : env.checkAfterClipboard = true
      · rw [if_pos hc] at h; simp at h
      · rw [if_neg hc] at h
        exact mem_uploadDragStage env h
  · rw [if_neg hia] at h
    exact mem_uploadDragStage env h

theorem mem_uploadTrace {a : Action} (env : UploadEnv)
    (h : a ∈ uploadImageToGemini env) : isUploadAction a = true := by
  unfold uploadImageToGemini at h
  rcases List.mem_append.1 h with h | h
  · by_cases hab : env.addButtonFound = true
    · rw [if_pos hab] at h
      simp at h
      rcases h with rfl | rfl <;> rfl
    · rw [if_neg hab] at h; simp at h
  · by_cases hfi : env.fileInputPresent = true
    · rw [if_pos hfi] at h
      rcases List.mem_append.1 h with h | h
      · simp at h
        rcases h with rfl | rfl | rfl | rfl | rfl <;> rfl
      · by_cases hc : env.checkAfterFileInput = true
        · rw [if_pos hc] at h; simp at h
        · rw [if_neg hc] at h
          exact mem_uploadClipboardStage env h
    · rw [if_neg hfi] at h
      exact mem_uploadClipboardStage env h

theorem mem_typeTrace {a : Action} (t h1 : String)
    (hm : a ∈ typeSynthIDQuery t h1) : isComposeAction a = true := by
  unfold typeSynthIDQuery at hm
  rcases List.mem_append.1 hm with hm | hm
  · rcases List.mem_append.1 hm with hm | hm
    · simp at hm
      rcases hm with rfl | rfl | rfl | rfl | rfl | rfl | rfl | rfl | rfl | rfl <;> rfl
    · by_cases hc : checkForSynthIdTag t h1 = true
      · rw [if_pos hc] at hm; simp at hm
      · rw [if_neg hc] at hm
        simp at hm
        rcases hm with rfl | rfl | rfl <;> rfl
  · simp at hm
    subst hm; rfl

@[simp]
theorem upload_no_emit (env : UploadEnv) (ev : OutEvent) :
    Action.emit ev ∉ uploadImageToGemini env := by
  intro h
  simpa [isUploadAction] using mem_uploadTrace env h

@[simp]
theorem upload_no_clickSend (env : UploadEnv) :
    Action.clickSend ∉ uploadImageToGemini env := by
  intro h
  simpa [isUploadAction] using mem_uploadTrace env h

@[simp]
theorem upload_no_showCompletion (env : UploadEnv) :
    Action.showCompletion ∉ uploadImageToGemini env := by
  intro h
  simpa [isUploadAction] using mem_uploadTrace env h

@[simp]
theorem upload_no_showManualPrompt (env : UploadEnv) :
    Action.showManualPrompt ∉ uploadImageToGemini env := by
  intro h
  simpa [isUploadAction] using mem_uploadTrace env h

@[simp]
theorem upload_no_typeText (env : UploadEnv) (s : String) :
    Action.typeText s ∉ uploadImageToGemini env := by
  intro h
  simpa [isUploadAction] using mem_uploadTrace env h

@[simp]
theorem type_no_emit (t h1 : String) (ev : OutEvent) :
    Action.emit ev ∉ typeSynthIDQuery t h1 := by
  intro h
  simpa [isComposeAction] using mem_typeTrace t h1 h

@[simp]
theorem type_no_setFileInputFiles (t h1 : String) :
    Action.setFileInputFiles ∉ typeSynthIDQuery t h1 := by
  intro h
  simpa [isComposeAction] using mem_typeTrace t h1 h

@[simp]
theorem type_no_dispatchPaste (t h1 : String) :
    Action.dispatchPaste ∉ typeSynthIDQuery t h1 := by
  intro h
  simpa [isComposeAction] using mem_typeTrace t h1 h

@[simp]
theorem type_no_drop (t h1 : String) (i : Nat) :
    Action.drop i ∉ typeSynthIDQuery t h1 := by
  intro h
  simpa [isComposeAction] using mem_typeTrace t h1 h

@[simp]
theorem type_no_clickSend (t h1 : String) :
    Action.clickSend ∉ typeSynthIDQuery t h1 := by
  intro h
  simpa [isComposeAction] using mem_typeTrace t h1 h

@[simp]
theorem type_no_showCompletion (t h1 : String) :
    Action.showCompletion ∉ typeSynthIDQuery t h1 := by
  intro h
  simpa [isComposeAction] using mem_typeTrace t h1 h

@[simp]
theorem type_no_showManualPrompt (t h1 : String) :
    Action.showManualPrompt ∉ typeSynthIDQuery t h1 := by
  intro h
  simpa [isComposeAction] using mem_typeTrace t h1 h

@[simp]
theorem eventsOf_nil : eventsOf [] = [] := rfl

@[simp]
theorem eventsOf_cons (a : Action) (tr : List Action) :
    eventsOf (a :: tr) =
      (match a with | Action.emit ev => [ev] | _ => []) ++ eventsOf tr := by
  cases a <;> rfl

@[simp]
theorem eventsOf_append (l₁ l₂ : List Action) :
    eventsOf (l₁ ++ l₂) = eventsOf l₁ ++ eventsOf l₂ := by
  unfold eventsOf
  exact List.filterMap_append l₁ l₂ _

@[simp]
theorem eventsOf_upload (env : UploadEnv) :
    eventsOf (uploadImageToGemini env) = [] := by
  unfold eventsOf
  rw [List.filterMap_eq_nil_iff]
  intro a ha
  have hc := mem_uploadTrace env ha
  cases a <;> first | rfl | simp [isUploadAction] at hc

@[simp]
theorem eventsOf_typeTrace (t h1 : String) :
    eventsOf (typeSynthIDQuery t h1) = [] := by
  unfold eventsOf
  rw [List.filterMap_eq_nil_iff]
  intro a ha
  have hc := mem_typeTrace t h1 ha
  cases a <;> first | rfl | simp [isComposeAction] at hc

/-- C9: the pending-record handoff is destructive and single-shot: when a
GET_PENDING_IMAGE request returns a stored PendingCheck record (the
handler applies no age test), the same handling removes the store's copy,
so any subsequent GET_PENDING_IMAGE request returns null. -/
theorem pending_handoff_single_shot (s : StoreState) (p : PendingCheck)
    (h : (handleGetPendingImage s).fst = some p) :
    ((handleGetPendingImage s).snd).pendingImageCheck = none
    ∧ (handleGetPendingImage ((handleGetPendingImage s).snd)).fst = none := by
  rcases s with ⟨pend⟩
  cases pend with
  | none => simp [handleGetPendingImage] at h
  | some q => simp [handleGetPendingImage]

theorem pending_handoff_single_shot_witness :
    (handleGetPendingImage ⟨some ⟨"https://example.com/cat.png", 0, 1⟩⟩).fst
        = some ⟨"https://example.com/cat.png", 0, 1⟩
    ∧ (handleGetPendingImage
        ((handleGetPendingImage ⟨some ⟨"https://example.com/cat.png", 0, 1⟩⟩).snd)).fst
        = none :=
  ⟨rfl, (pending_handoff_single_shot ⟨some ⟨"https://example.com/cat.png", 0, 1⟩⟩
          ⟨"https://example.com/cat.png", 0, 1⟩ rfl).2⟩

/-- C10: getFileNameFromUrl is total (the URL-parse failure is the none
case) and returns the pathname's last slash-separated segment exactly when
that segment is non-empty and contains a dot, and the constant image.png
otherwise; the result is never empty, so the File name fallback
getFileNameFromUrl(url) possibly-or image.png always equals the function's
result and the File object always has a non-empty name. -/
theorem getFileNameFromUrl_spec (path : String) :
    getFileNameFromUrl none = "image.png"
    ∧ getFileNameFromUrl (some path) =
        (if !((jsSplit path '/').getLastD "").isEmpty
            && jsIncludes ((jsSplit path '/').getLastD "") "."
         then (jsSplit path '/').getLastD "" else "image.png")
    ∧ (getFileNameFromUrl (some path)).isEmpty = false
    ∧ uploadFileName (some path) = getFileNameFromUrl (some path)
    ∧ uploadFileName none = "image.png" := by
  have h2 : getFileNameFromUrl (some path) =
      (if !((jsSplit path '/').getLastD "").isEmpty
          && jsIncludes ((jsSplit path '/').getLastD "") "."
       then (jsSplit path '/').getLastD "" else "image.png") := rfl
  have h3 : (getFileNameFromUrl (some path)).isEmpty = false := by
    rw [h2]
    by_cases hc : (!((jsSplit path '/').getLastD "").isEmpty
        && jsIncludes ((jsSplit path '/').getLastD "") ".") = true
    · rw [if_pos hc]
      rw [Bool.and_eq_true] at hc
      simpa using hc.1
    · rw [if_neg hc]; rfl
  refine ⟨rfl, h2, h3, ?_, rfl⟩
  unfold uploadFileName
  simp [h3]

/-- C5: fetchImage prefers the privileged background attempt; the direct
credential-less page fetch is attempted exactly when the background
attempt yields no blob; when both attempts fail it throws the
DownloadError message advising manual upload, and that message is the
only error the fetch-plus-injection pipeline can produce. -/
theorem fetchImage_fallback_spec :
    (∀ b direct, fetchImage (some b) direct = ⟨Except.ok b, false⟩)
    ∧ (∀ b, fetchImage none (some b) = ⟨Except.ok b, true⟩)
    ∧ fetchImage none none = ⟨Except.error downloadErrorMsg, true⟩
    ∧ (∀ bg direct, (fetchImage bg direct).directAttempted = true → bg = none)
    ∧ (∀ bg direct env msg,
        uploadPipeline bg direct env = Except.error msg → msg = downloadErrorMsg) := by
  refine ⟨fun b direct => rfl, fun b => rfl, rfl, ?_, ?_⟩
  · intro bg direct h
    cases bg with
    | none => rfl
    | some b => simp [fetchImage] at h
  · intro bg direct env msg h
    cases bg with
    | some b => simp [uploadPipeline, fetchImage] at h
    | none =>
      cases direct with
      | some b => simp [uploadPipeline, fetchImage] at h
      | none =>
        simp [uploadPipeline, fetchImage] at h
        exact h.symm

theorem fetchImage_fallback_spec_witness :
    (none : Option String) = none
    ∧ fetchImage none (some "BLOB") = ⟨Except.ok "BLOB", true⟩ :=
  ⟨fetchImage_fallback_spec.2.2.2.1 none none rfl,
   fetchImage_fallback_spec.2.1 "BLOB"⟩

/-- C6: the mention-commit step dispatches exactly one Tab when the first
verification (exact-cased token in the text, or chip/mention/data-
markup) succeeds and exactly two Tabs otherwise, never more, and in
either case the flow then types the literal question. -/
theorem mention_commit_single_retry (t1 h1 : String) :
    ((typeSynthIDQuery t1 h1).count Action.pressTabKey
        = if checkForSynthIdTag t1 h1 then 1 else 2)
    ∧ (typeSynthIDQuery t1 h1).count Action.pressTabKey ≤ 2
    ∧ (typeSynthIDQuery t1 h1).getLast?
        = some (Action.typeText " is this image real?") := by
  cases hc : checkForSynthIdTag t1 h1 <;>
    simp only [typeSynthIDQuery, hc] <;> decide

/-- C2: a PendingCheck whose age at pickup exceeds 30000 ms causes the
orchestrator to return before any overlay, poll, typing, upload or send
action and before any outbound event: the run's trace is empty. -/
theorem stale_pending_silent (env : RunEnv) (send : Bool) (p : PendingCheck)
    (hp : env.pending = some p) (hstale : env.now - p.timestamp > 30000) :
    runMain env send = [] := by
  unfold runMain
  rw [hp]
  exact if_pos hstale

def staleEnv : RunEnv :=
  ⟨some ⟨"https://example.com/cat.png", 0, 7⟩, 30001,
   ReadyResult.timeout ⟨"", []⟩, none, none, "", "",
   ⟨false, false, false, false, false, [], false⟩, false⟩

theorem stale_pending_silent_witness :
    ((30001 : Int) - 0 > 30000) ∧ runMain staleEnv true = [] :=
  ⟨by decide,
   stale_pending_silent staleEnv true ⟨"https://example.com/cat.png", 0, 7⟩ rfl
     (by decide)⟩

theorem mem_ite {α : Type} {c : Prop} [Decidable c] {l₁ l₂ : List α} {a : α}
    (h : a ∈ (if c then l₁ else l₂)) : a ∈ l₁ ∨ a ∈ l₂ := by
  split at h
  · exact Or.inl h
  · exact Or.inr h

theorem waitLoopAux_timeout_of_none (doms : Nat → DOM) (url : String)
    (hall : ∀ j, 2000 + POLL_INTERVAL * j < MAX_WAIT_TIME → pollOnce (doms j) = none) :
    ∀ fuel k, k ≤ 56 → 57 ≤ k + fuel →
      waitLoopAux doms url fuel k = ReadyResult.timeout (diagOf url (doms 56)) := by
  intro fuel
  induction fuel with
  | zero => intro k hk hsum; omega
  | succ fuel ih =>
    intro k hk hsum
    by_cases hlt : k < 56
    · have hcond : 2000 + POLL_INTERVAL * k < MAX_WAIT_TIME := by
        simp only [POLL_INTERVAL, MAX_WAIT_TIME]
        omega
      simp only [waitLoopAux]
      rw [if_pos hcond, hall k hcond]
      exact ih (k + 1) (by omega) (by omega)
    · have hk56 : k = 56 := by omega
      subst hk56
      have hcond : ¬(2000 + POLL_INTERVAL * 56 < MAX_WAIT_TIME) := by
        simp [POLL_INTERVAL, MAX_WAIT_TIME]
      simp only [waitLoopAux]
      rw [if_neg hcond]

theorem waitLoopAux_found (doms : Nat → DOM) (url : String) (n : Nat) (e : Elem)
    (hn : 2000 + POLL_INTERVAL * n < MAX_WAIT_TIME)
    (hnone : ∀ j, j < n → pollOnce (doms j) = none)
    (hfound : pollOnce (doms n) = some e) :
    ∀ fuel k, k ≤ n → n < k + fuel →
      waitLoopAux doms url fuel k = ReadyResult.found e := by
  intro fuel
  induction fuel with
  | zero => intro k hk hlt; omega
  | succ fuel ih =>
    intro k hk hlt
    have hcond : 2000 + POLL_INTERVAL * k < MAX_WAIT_TIME := by
      simp only [POLL_INTERVAL, MAX_WAIT_TIME] at hn ⊢
      omega
    simp only [waitLoopAux]
    rw [if_pos hcond]
    by_cases hkn : k = n
    · subst hkn
      rw [hfound]
    · rw [hnone k (by omega)]
      exact ih (k + 1) (by omega) (by omega)

/-- C3: the readiness wait polls the input-area locator once per
POLL_INTERVAL while the elapsed time (the 2000 ms hydration settle plus
the poll intervals) is below MAX_WAIT_TIME; when no poll finds an element
inside the bound it fails with the Timeout error carrying the current URL
and the contenteditable elements as diagnostics, and when some poll first
finds an element that element is returned. -/
theorem waitForGeminiReady_poll_spec (doms : Nat → DOM) (url : String) :
    ((∀ j, 2000 + POLL_INTERVAL * j < MAX_WAIT_TIME → pollOnce (doms j) = none) →
       waitForGeminiReady doms url =
         ReadyResult.timeout
           ⟨url, (doms 56).elems.filter (fun e => e.contenteditable.isSome)⟩)
    ∧ (∀ n e, 2000 + POLL_INTERVAL * n < MAX_WAIT_TIME →
        (∀ j, j < n → pollOnce (doms j) = none) →
        pollOnce (doms n) = some e →
        waitForGeminiReady doms url = ReadyResult.found e) := by
  constructor
  · intro hall
    have h := waitLoopAux_timeout_of_none doms url hall 57 0 (by omega) (by omega)
    simpa [waitForGeminiReady, diagOf] using h
  · intro n e hn hnone hfound
    have hn56 : n ≤ 56 := by
      simp only [POLL_INTERVAL, MAX_WAIT_TIME] at hn
      omega
    exact waitLoopAux_found doms url n e hn hnone hfound 57 0 (by omega) (by omega)

def emptyDOM : DOM := ⟨[]⟩

theorem waitForGeminiReady_poll_spec_witness :
    waitForGeminiReady (fun _ => emptyDOM) "https://gemini.google.com/app"
      = ReadyResult.timeout ⟨"https://gemini.google.com/app", []⟩ :=
  (waitForGeminiReady_poll_spec (fun _ => emptyDOM) "https://gemini.google.com/app").1
    (fun _ _ => rfl)

/-- A small contenteditable element: it matches the last selector of the
findInputArea chain but fails the generic scan's size test. -/
def tinyInput : Elem :=
  ⟨"div", ["div[contenteditable=\"true\"]"], some "true",
   ⟨5, 5, 0, 5, 5⟩, "", "", "", false⟩

def tinyDOM : DOM := ⟨[tinyInput]⟩

/-- C8 counterexample: on a DOM whose only contenteditable element has a
5 times 5 bounding box, the generic scan rejects it but the selector-based
fallback chain returns it, and the readiness wait hands exactly this
too-small element to the caller, so not every lookup path enforces the
minimum-size predicate. -/
theorem input_locator_size_counterexample :
    findInputArea tinyDOM = some tinyInput
    ∧ waitForGeminiReady (fun _ => tinyDOM) "https://gemini.google.com/app"
        = ReadyResult.found tinyInput
    ∧ suitableInput tinyInput = false := by
  refine ⟨by decide, by decide, rfl⟩

/-- C8 amended: the minimum-size predicate (width > 100 and height > 20)
is enforced on the generic contenteditable scan — every element that scan
returns satisfies it — but the selector-based fallback chain applies no
size or visibility predicate and can return an arbitrarily small
element. -/
theorem input_locator_size_amended :
    (∀ dom e, genericScan dom = some e →
        e.rect.width > 100 ∧ e.rect.height > 20)
    ∧ (∃ dom e, findInputArea dom = some e
        ∧ ¬(e.rect.width > 100 ∧ e.rect.height > 20)) := by
  constructor
  · intro dom e h
    have hp := List.find?_some h
    unfold suitableInput at hp
    rw [Bool.and_eq_true] at hp
    exact ⟨of_decide_eq_true hp.1, of_decide_eq_true hp.2⟩
  · exact ⟨tinyDOM, tinyInput, by decide, by decide⟩

/-- A large visible input element accepted by the generic scan. -/
def bigInput : Elem :=
  ⟨"div", ["div[contenteditable=\"true\"]"], some "true",
   ⟨600, 80, 500, 580, 900⟩, "", "", "Enter a prompt here", false⟩

def bigDOM : DOM := ⟨[bigInput]⟩

theorem input_locator_size_amended_witness :
    genericScan bigDOM = some bigInput
    ∧ bigInput.rect.width > 100 ∧ bigInput.rect.height > 20 :=
  ⟨by decide, input_locator_size_amended.1 bigDOM bigInput (by decide)⟩

/-- The input element handed to the orchestrator in run fixtures. -/
def inputElem : Elem :=
  ⟨"rich-textarea", ["rich-textarea"], some "true",
   ⟨600, 80, 500, 580, 900⟩, "", "", "", false⟩

/-- A run in which both fetch channels fail, readiness succeeded, and the
pending record is fresh. -/
def scenarioBEnv : RunEnv :=
  ⟨some ⟨"https://example.com/cat.png", 0, 7⟩, 1000,
   ReadyResult.found inputElem, none, none, "@synthid", "",
   ⟨false, false, false, false, false, [], false⟩, false⟩

/-- C1 counterexample: with both fetch channels failing, the run does emit
the Failed event carrying the download message, but the trace already
contains the typing of the mention trigger into the input area — the
orchestrator types the query before fetching the image — refuting that no
DOM mutation beyond readiness detection occurs before the abort. -/
theorem scenarioB_typing_precedes_fetch_failure :
    scenarioBEnv.bgFetch = none
    ∧ scenarioBEnv.directFetch = none
    ∧ eventsOf (runMain scenarioBEnv false) = [OutEvent.checkError downloadErrorMsg]
    ∧ Action.typeText "@" ∈ runMain scenarioBEnv false := by
  refine ⟨rfl, rfl, by decide, by decide⟩

/-- C1 amended: when the image fetch fails via both the background channel
and the direct page fetch, the run emits the Failed event with the
download message and performs no upload injection or send action after
the failure, but the mention query has already been typed into the input
area, because the orchestrator's step 1 types the query before the step-2
fetch. -/
theorem fetch_failure_emits_failed_after_typing (env : RunEnv) (send : Bool)
    (p : PendingCheck) (e : Elem)
    (hp : env.pending = some p) (hfresh : ¬(env.now - p.timestamp > 30000))
    (hready : env.ready = ReadyResult.found e)
    (hbg : env.bgFetch = none) (hdir : env.directFetch = none) :
    eventsOf (runMain env send) = [OutEvent.checkError downloadErrorMsg]
    ∧ Action.typeText "@" ∈ runMain env send
    ∧ Action.setFileInputFiles ∉ runMain env send
    ∧ Action.dispatchPaste ∉ runMain env send
    ∧ (∀ i, Action.drop i ∉ runMain env send)
    ∧ Action.clickSend ∉ runMain env send := by
  refine ⟨?_, ?_, ?_, ?_, ?_, ?_⟩
  all_goals simp only [runMain, hp, if_neg hfresh, hready, hbg, hdir, fetchImage]
  · simp [showOverlayActs]
  · by_cases hc : checkForSynthIdTag env.t1 env.h1 = true <;>
      simp [showOverlayActs, typeSynthIDQuery, hc, List.mem_append]
  · simp [showOverlayActs, List.mem_append]
  · simp [showOverlayActs, List.mem_append]
  · intro i
    simp [showOverlayActs, List.mem_append]
  · simp [showOverlayActs, List.mem_append]

theorem fetch_failure_emits_failed_after_typing_witness :
    eventsOf (runMain scenarioBEnv false) = [OutEvent.checkError downloadErrorMsg]
    ∧ Action.typeText "@" ∈ runMain scenarioBEnv false :=
  ⟨(fetch_failure_emits_failed_after_typing scenarioBEnv false
      ⟨"https://example.com/cat.png", 0, 7⟩ inputElem rfl (by decide) rfl rfl rfl).1,
   (fetch_failure_emits_failed_after_typing scenarioBEnv false
      ⟨"https://example.com/cat.png", 0, 7⟩ inputElem rfl (by decide) rfl rfl rfl).2.1⟩

/-- C7: when none of the three send heuristics matches, clickSendButton
returns false (it is a total function and throws nothing); the
orchestrator then shows the manual-send prompt instead of the completion
animation, and its only outbound event is still Complete with success
true — a send-button miss never produces a Failed event. -/
theorem send_miss_graceful (dom : DOM) (vp : Viewport) (env : RunEnv)
    (p : PendingCheck) (e : Elem) (d : String)
    (h1 : sendMethod1 dom vp = none) (h2 : sendMethod2 dom = none)
    (h3 : sendMethod3 dom = none)
    (hp : env.pending = some p) (hfresh : ¬(env.now - p.timestamp > 30000))
    (hready : env.ready = ReadyResult.found e) (hbg : env.bgFetch = some d) :
    clickSendButton dom vp = false
    ∧ Action.showManualPrompt ∈ runMain env (clickSendButton dom vp)
    ∧ Action.showCompletion ∉ runMain env (clickSendButton dom vp)
    ∧ eventsOf (runMain env (clickSendButton dom vp))
        = [OutEvent.checkComplete true] := by
  have hfalse : clickSendButton dom vp = false := by
    unfold clickSendButton
    rw [h1, h2, h3]
  refine ⟨hfalse, ?_, ?_, ?_⟩
  all_goals rw [hfalse]
  all_goals simp only [runMain, hp, if_neg hfresh, hready, hbg, fetchImage]
  · simp [showOverlayActs, List.mem_append]
  · simp [showOverlayActs, List.mem_append]
  · simp [showOverlayActs]

def sendEnvFixture : RunEnv :=
  ⟨some ⟨"https://example.com/cat.png", 0, 7⟩, 1000,
   ReadyResult.found inputElem, some "DATAURLBLOB", none, "@SynthID ok", "",
   ⟨false, true, true, true, false, [], false⟩, true⟩

theorem send_miss_graceful_witness :
    clickSendButton emptyDOM ⟨800, 1200⟩ = false
    ∧ eventsOf (runMain sendEnvFixture (clickSendButton emptyDOM ⟨800, 1200⟩))
        = [OutEvent.checkComplete true] :=
  ⟨(send_miss_graceful emptyDOM ⟨800, 1200⟩ sendEnvFixture
      ⟨"https://example.com/cat.png", 0, 7⟩ inputElem "DATAURLBLOB"
      rfl rfl rfl rfl (by decide) rfl rfl).1,
   (send_miss_graceful emptyDOM ⟨800, 1200⟩ sendEnvFixture
      ⟨"https://example.com/cat.png", 0, 7⟩ inputElem "DATAURLBLOB"
      rfl rfl rfl rfl (by decide) rfl rfl).2.2.2⟩

@[simp]
theorem dragLoop_no_paste (i : Nat) (l : List Bool) :
    Action.dispatchPaste ∉ dragLoop i l := by
  intro h
  simpa [isDragAction] using mem_dragLoop l i h

@[simp]
theorem dragLoop_no_setFile (i : Nat) (l : List Bool) :
    Action.setFileInputFiles ∉ dragLoop i l := by
  intro h
  simpa [isDragAction] using mem_dragLoop l i h

@[simp]
theorem dragLoop_no_warn (i : Nat) (l : List Bool) :
    Action.warnUploadUnconfirmed ∉ dragLoop i l := by
  intro h
  simpa [isDragAction] using mem_dragLoop l i h

theorem mem_upload_split {a : Action} (env : UploadEnv)
    (h : a ∈ uploadImageToGemini env) :
    a = Action.clickAddButton ∨ a = Action.settle 800
    ∨ a = Action.setFileInputFiles ∨ a = Action.dispatchChangeEvent
    ∨ a = Action.dispatchInputEvent ∨ a = Action.settle 2000
    ∨ a = Action.uploadCheck env.checkAfterFileInput
    ∨ a ∈ uploadClipboardStage env := by
  unfold uploadImageToGemini at h
  rcases List.mem_append.1 h with h | h
  · rcases mem_ite h with h | h
    · simp at h
      tauto
    · simp at h
  · rcases mem_ite h with h | h
    · rcases List.mem_append.1 h with h | h
      · simp at h
        tauto
      · rcases mem_ite h with h | h
        · simp at h
        · tauto
    · tauto

theorem mem_clipStage_split {a : Action} (env : UploadEnv)
    (h : a ∈ uploadClipboardStage env) :
    a = Action.dispatchPaste ∨ a = Action.settle 2000
    ∨ a = Action.uploadCheck env.checkAfterClipboard
    ∨ a ∈ uploadDragStage env := by
  unfold uploadClipboardStage at h
  rcases mem_ite h with h | h
  · rcases List.mem_append.1 h with h | h
    · simp at h
      tauto
    · rcases mem_ite h with h | h
      · simp at h
      · tauto
  · tauto

theorem mem_dragStage_split {a : Action} (env : UploadEnv)
    (h : a ∈ uploadDragStage env) :
    a ∈ dragLoop 0 env.dragChecks ∨ a = Action.settle 2000
    ∨ a = Action.uploadCheck env.checkAfterDragStage
    ∨ a = Action.warnUploadUnconfirmed := by
  unfold uploadDragStage simulateDragDropUpload at h
  rcases List.mem_append.1 h with h | h
  · rcases List.mem_append.1 h with h | h
    · tauto
    · simp at h
      tauto
  · rcases mem_ite h with h | h
    · simp at h
    · simp at h
      tauto

theorem mem_upload_fileSuccess {a : Action} (env : UploadEnv)
    (hfi : env.fileInputPresent = true) (hc1 : env.checkAfterFileInput = true)
    (h : a ∈ uploadImageToGemini env) :
    a = Action.clickAddButton ∨ a = Action.settle 800
    ∨ a = Action.setFileInputFiles ∨ a = Action.dispatchChangeEvent
    ∨ a = Action.dispatchInputEvent ∨ a = Action.settle 2000
    ∨ a = Action.uploadCheck env.checkAfterFileInput := by
  unfold uploadImageToGemini at h
  rw [if_pos hfi, if_pos hc1] at h
  rcases List.mem_append.1 h with h | h
  · rcases mem_ite h with h | h
    · simp at h
      tauto
    · simp at h
  · simp at h
    tauto

theorem mem_clipStage_clipSuccess {a : Action} (env : UploadEnv)
    (hia : env.inputAreaPresent = true) (hc2 : env.checkAfterClipboard = true)
    (h : a ∈ uploadClipboardStage env) :
    a = Action.dispatchPaste ∨ a = Action.settle 2000
    ∨ a = Action.uploadCheck env.checkAfterClipboard := by
  unfold uploadClipboardStage at h
  rw [if_pos hia, if_pos hc2] at h
  simp at h
  tauto

theorem dragStage_no_warn (env : UploadEnv) (hc3 : env.checkAfterDragStage = true) :
    Action.warnUploadUnconfirmed ∉ uploadDragStage env := by
  intro h
  unfold uploadDragStage simulateDragDropUpload at h
  rcases List.mem_append.1 h with h | h
  · rcases List.mem_append.1 h with h | h
    · exact dragLoop_no_warn 0 env.dragChecks h
    · simp at h
  · rw [if_pos hc3] at h
    simp at h

theorem paste_not_in_dragStage (env : UploadEnv) :
    Action.dispatchPaste ∉ uploadDragStage env := by
  intro h
  rcases mem_dragStage_split env h with h | h | h | h
  · exact dragLoop_no_paste 0 env.dragChecks h
  · simp at h
  · simp at h
  · simp at h

/-- C4: the injection stage of the upload pipeline tries its strategies in
the fixed order file-input, clipboard paste, drag-and-drop: a paste is
dispatched only when the file-input stage did not verify and an input area
exists, drag events only when neither earlier stage verified; the
file-input and clipboard attempts are each followed in place by a 2000 ms
settle and an uploaded-image check, and the drag stage (with its shorter
internal settles) by its own 2000 ms settle and check; a successful check
short-circuits every remaining strategy and the closing warning; when no
check succeeds a warning is logged; and the injection stage never aborts
the run — under a successful fetch the orchestrated run still reaches the
send click and reports Complete with success true for every injection
environment. -/
theorem upload_strategy_spec (env : UploadEnv) :
    (Action.dispatchPaste ∈ uploadImageToGemini env →
      ((env.fileInputPresent = false ∨ env.checkAfterFileInput = false)
        ∧ env.inputAreaPresent = true))
    ∧ (∀ i, Action.drop i ∈ uploadImageToGemini env →
      ((env.fileInputPresent = false ∨ env.checkAfterFileInput = false)
        ∧ (env.inputAreaPresent = false ∨ env.checkAfterClipboard = false)))
    ∧ (env.fileInputPresent = true →
      ([Action.setFileInputFiles, Action.dispatchChangeEvent, Action.dispatchInputEvent,
        Action.settle 2000, Action.uploadCheck env.checkAfterFileInput] : List Action)
        <:+: uploadImageToGemini env)
    ∧ (env.inputAreaPresent = true →
      (env.fileInputPresent = true → env.checkAfterFileInput = false) →
      ([Action.dispatchPaste, Action.settle 2000,
        Action.uploadCheck env.checkAfterClipboard] : List Action)
        <:+: uploadImageToGemini env)
    ∧ ((env.fileInputPresent = true → env.checkAfterFileInput = false) →
      (env.inputAreaPresent = true → env.checkAfterClipboard = false) →
      (dragLoop 0 env.dragChecks ++
        [Action.settle 2000, Action.uploadCheck env.checkAfterDragStage])
        <:+: uploadImageToGemini env)
    ∧ (env.fileInputPresent = true → env.checkAfterFileInput = true →
      (Action.dispatchPaste ∉ uploadImageToGemini env
        ∧ (∀ i, Action.drop i ∉ uploadImageToGemini env)
        ∧ Action.warnUploadUnconfirmed ∉ uploadImageToGemini env))
    ∧ (env.inputAreaPresent = true → env.checkAfterClipboard = true →
      ((∀ i, Action.drop i ∉ uploadImageToGemini env)
        ∧ Action.warnUploadUnconfirmed ∉ uploadImageToGemini env))
    ∧ (env.checkAfterDragStage = true →
      Action.warnUploadUnconfirmed ∉ uploadImageToGemini env)
    ∧ ((env.fileInputPresent = true → env.checkAfterFileInput = false) →
      (env.inputAreaPresent = true → env.checkAfterClipboard = false) →
      env.checkAfterDragStage = false →
      Action.warnUploadUnconfirmed ∈ uploadImageToGemini env)
    ∧ (∀ (renv : RunEnv) (send : Bool) (p : PendingCheck) (e : Elem) (d : String),
      renv.pending = some p → ¬(renv.now - p.timestamp > 30000) →
      renv.ready = ReadyResult.found e → renv.bgFetch = some d →
      (Action.clickSend ∈ runMain renv send
        ∧ eventsOf (runMain renv send) = [OutEvent.checkComplete true])) := by
  refine ⟨?_, ?_, ?_, ?_, ?_, ?_, ?_, ?_, ?_, ?_⟩
  · intro hpaste
    constructor
    · cases hfi : env.fileInputPresent with
      | false => exact Or.inl rfl
      | true =>
        cases hc1 : env.checkAfterFileInput with
        | false => exact Or.inr rfl
        | true =>
          exfalso
          have hm := mem_upload_fileSuccess env hfi hc1 hpaste
          simp at hm
    · cases hia : env.inputAreaPresent with
      | true => rfl
      | false =>
        exfalso
        rcases mem_upload_split env hpaste with h | h | h | h | h | h | h | h <;>
          first
            | simp at h
            | (unfold uploadClipboardStage at h
               rw [if_neg (show ¬(env.inputAreaPresent = true) from by simp [hia])] at h
               exact paste_not_in_dragStage env h)
  · intro i hdrop
    constructor
    · cases hfi : env.fileInputPresent with
      | false => exact Or.inl rfl
      | true =>
        cases hc1 : env.checkAfterFileInput with
        | false => exact Or.inr rfl
        | true =>
          exfalso
          have hm := mem_upload_fileSuccess env hfi hc1 hdrop
          simp at hm
    · cases hia : env.inputAreaPresent with
      | false => exact Or.inl rfl
      | true =>
        cases hc2 : env.checkAfterClipboard with
        | false => exact Or.inr rfl
        | true =>
          exfalso
          rcases mem_upload_split env hdrop with h | h | h | h | h | h | h | h <;>
            first
              | simp at h
              | (have hm := mem_clipStage_clipSuccess env hia hc2 h
                 simp at hm)
  · intro hfi
    unfold uploadImageToGemini
    rw [if_pos hfi]
    refine ⟨(if env.addButtonFound = true
               then [Action.clickAddButton, Action.settle 800] else []),
            (if env.checkAfterFileInput = true
               then [] else uploadClipboardStage env), ?_⟩
    simp [List.append_assoc]
  · intro hia hno
    unfold uploadImageToGemini uploadClipboardStage
    by_cases hfi : env.fileInputPresent = true
    · have hc1 := hno hfi
      rw [if_pos hfi, if_neg (show ¬(env.checkAfterFileInput = true) from by simp [hc1]), if_pos hia]
      refine ⟨(if env.addButtonFound = true
                 then [Action.clickAddButton, Action.settle 800] else []) ++
              [Action.setFileInputFiles, Action.dispatchChangeEvent,
               Action.dispatchInputEvent, Action.settle 2000,
               Action.uploadCheck env.checkAfterFileInput],
              (if env.checkAfterClipboard = true
                 then [] else uploadDragStage env), ?_⟩
      simp [List.append_assoc]
    · rw [if_neg hfi, if_pos hia]
      refine ⟨(if env.addButtonFound = true
                 then [Action.clickAddButton, Action.settle 800] else []),
              (if env.checkAfterClipboard = true
                 then [] else uploadDragStage env), ?_⟩
      simp [List.append_assoc]
  · intro h1 h2
    unfold uploadImageToGemini uploadClipboardStage uploadDragStage simulateDragDropUpload
    by_cases hfi : env.fileInputPresent = true
    · have hc1 := h1 hfi
      rw [if_pos hfi, if_neg (show ¬(env.checkAfterFileInput = true) from by simp [hc1])]
      by_cases hia : env.inputAreaPresent = true
      · have hc2 := h2 hia
        rw [if_pos hia, if_neg (show ¬(env.checkAfterClipboard = true) from by simp [hc2])]
        refine ⟨(if env.addButtonFound = true
                   then [Action.clickAddButton, Action.settle 800] else []) ++
                [Action.setFileInputFiles, Action.dispatchChangeEvent,
                 Action.dispatchInputEvent, Action.settle 2000,
                 Action.uploadCheck env.checkAfterFileInput] ++
                [Action.dispatchPaste, Action.settle 2000,
                 Action.uploadCheck env.checkAfterClipboard],
                (if env.checkAfterDragStage = true
                   then [] else [Action.warnUploadUnconfirmed]), ?_⟩
        simp [List.append_assoc]
      · rw [if_neg hia]
        refine ⟨(if env.addButtonFound = true
                   then [Action.clickAddButton, Action.settle 800] else []) ++
                [Action.setFileInputFiles, Action.dispatchChangeEvent,
                 Action.dispatchInputEvent, Action.settle 2000,
                 Action.uploadCheck env.checkAfterFileInput],
                (if env.checkAfterDragStage = true
                   then [] else [Action.warnUploadUnconfirmed]), ?_⟩
        simp [List.append_assoc]
    · rw [if_neg hfi]
      by_cases hia : env.inputAreaPresent = true
      · have hc2 := h2 hia
        rw [if_pos hia, if_neg (show ¬(env.checkAfterClipboard = true) from by simp [hc2])]
        refine ⟨(if env.addButtonFound = true
                   then [Action.clickAddButton, Action.settle 800] else []) ++
                [Action.dispatchPaste, Action.settle 2000,
                 Action.uploadCheck env.checkAfterClipboard],
                (if env.checkAfterDragStage = true
                   then [] else [Action.warnUploadUnconfirmed]), ?_⟩
        simp [List.append_assoc]
      · rw [if_neg hia]
        refine ⟨(if env.addButtonFound = true
                   then [Action.clickAddButton, Action.settle 800] else []),
                (if env.checkAfterDragStage = true
                   then [] else [Action.warnUploadUnconfirmed]), ?_⟩
        simp [List.append_assoc]
  · intro hfi hc1
    refine ⟨?_, ?_, ?_⟩
    · intro h
      have hm := mem_upload_fileSuccess env hfi hc1 h
      simp at hm
    · intro i h
      have hm := mem_upload_fileSuccess env hfi hc1 h
      simp at hm
    · intro h
      have hm := mem_upload_fileSuccess env hfi hc1 h
      simp at hm
  · intro hia hc2
    constructor
    · intro i h
      rcases mem_upload_split env h with h | h | h | h | h | h | h | h <;>
        first
          | simp at h
          | (have hm := mem_clipStage_clipSuccess env hia hc2 h
             simp at hm)
    · intro h
      rcases mem_upload_split env h with h | h | h | h | h | h | h | h <;>
        first
          | simp at h
          | (have hm := mem_clipStage_clipSuccess env hia hc2 h
             simp at hm)
  · intro hc3 h
    rcases mem_upload_split env h with h | h | h | h | h | h | h | h <;>
      first
        | simp at h
        | (rcases mem_clipStage_split env h with h | h | h | h <;>
            first
              | simp at h
              | exact dragStage_no_warn env hc3 h)
  · intro h1 h2 h3
    unfold uploadImageToGemini uploadClipboardStage uploadDragStage simulateDragDropUpload
    by_cases hfi : env.fileInputPresent = true
    · have hc1 := h1 hfi
      rw [if_pos hfi, if_neg (show ¬(env.checkAfterFileInput = true) from by simp [hc1])]
      by_cases hia : env.inputAreaPresent = true
      · have hc2 := h2 hia
        rw [if_pos hia, if_neg (show ¬(env.checkAfterClipboard = true) from by simp [hc2]), if_neg (show ¬(env.checkAfterDragStage = true) from by simp [h3])]
        simp [List.mem_append]
      · rw [if_neg hia, if_neg (show ¬(env.checkAfterDragStage = true) from by simp [h3])]
        simp [List.mem_append]
    · rw [if_neg hfi]
      by_cases hia : env.inputAreaPresent = true
      · have hc2 := h2 hia
        rw [if_pos hia, if_neg (show ¬(env.checkAfterClipboard = true) from by simp [hc2]), if_neg (show ¬(env.checkAfterDragStage = true) from by simp [h3])]
        simp [List.mem_append]
      · rw [if_neg hia, if_neg (show ¬(env.checkAfterDragStage = true) from by simp [h3])]
        simp [List.mem_append]
  · intro renv send p e d hp hfresh hready hbg
    constructor
    · simp only [runMain, hp, if_neg hfresh, hready, hbg, fetchImage]
      simp [showOverlayActs, List.mem_append]
    · simp only [runMain, hp, if_neg hfresh, hready, hbg, fetchImage]
      cases send <;> simp [showOverlayActs]

/-- An injection environment in which every verification fails: the
file-input, clipboard and drag strategies all run and the warning is
logged. -/
def uploadEnvFxA : UploadEnv := ⟨true, true, true, false, false, [false], false⟩

theorem upload_strategy_spec_witness :
    (([Action.setFileInputFiles, Action.dispatchChangeEvent, Action.dispatchInputEvent,
       Action.settle 2000, Action.uploadCheck false] : List Action)
      <:+: uploadImageToGemini uploadEnvFxA)
    ∧ Action.warnUploadUnconfirmed ∈ uploadImageToGemini uploadEnvFxA :=
  ⟨(upload_strategy_spec uploadEnvFxA).2.2.1 rfl,
   (upload_strategy_spec uploadEnvFxA).2.2.2.2.2.2.2.2.1
     (fun _ => rfl) (fun _ => rfl) rfl⟩

end SynthID
